import Mathlib

/-!
Verification of the dsnet report core (src/reporttypes.go): the status
classification and report generation performed by GenerateReport, and the
persistence pair MustSave / MustLoadDsnetReport.

Modelling conventions: Go `time.Time` instants are integers counting
nanoseconds since the Go zero instant, so `IsZero` is equality with 0 and
`time.Since(t)` is `now - t` for an explicit `now` parameter standing for
the clock read; `net.IP` and the CIDR type JSONIPNet are modelled by their
textual form; Go maps are modelled as functions built by left folds with
later insertions overwriting earlier ones.
-/

namespace Dsnet

/-- Status is an integer enumeration (src/reporttypes.go lines 14-25), in
iota order: unknown 0, offline 1, online 2, dormant 3. -/
abbrev Status := Int

def statusUnknown : Status := 0

def statusOffline : Status := 1

def statusOnline : Status := 2

def statusDormant : Status := 3

/-- String form of a Status (src lines 27-40); any value outside the four
declared constants renders as the empty string. -/
def statusString (s : Status) : String :=
  if s = statusUnknown then "unknown"
  else if s = statusOffline then "offline"
  else if s = statusOnline then "online"
  else if s = statusDormant then "dormant"
  else ""

/-- Modelled from the spec: the online window constant TIMEOUT is declared
elsewhere in the repository; the source comments (src lines 19, 21) and the
spec fix it at 3 minutes. Durations are nanoseconds. -/
def TIMEOUT : Int := 180 * 1000000000

/-- Modelled from the spec: the expiry window constant EXPIRY is declared
elsewhere in the repository; the source comment (src line 23) and the spec
fix it at 28 days. -/
def EXPIRY : Int := 28 * 24 * 3600 * 1000000000

/-- A live peer from the device snapshot: the wgtypes.Peer fields that
GenerateReport reads (PublicKey, LastHandshakeTime, ReceiveBytes,
TransmitBytes, Endpoint; src lines 70-71, 97-98, 110-114). The optional
endpoint carries the external IP. -/
structure WgPeer where
  publicKey : String
  lastHandshakeTime : Int
  receiveBytes : Int
  transmitBytes : Int
  endpoint : Option String
  deriving DecidableEq

/-- Zero value that a Go map lookup yields for a missing key: src line 81
keeps using the zero wgtypes.Peer when the peer is not known. -/
def zeroWgPeer : WgPeer := ⟨"", 0, 0, 0, none⟩

/-- The live device snapshot (wgtypes.Device): its peer list, src line 70. -/
structure Device where
  peers : List WgPeer
  deriving DecidableEq

/-- Modelled from the spec: the configured-peer type is declared elsewhere
in the repository; spec section 6 describes each configured peer as a public
key with static metadata, and GenerateReport reads exactly these fields
(src lines 81, 102-109). -/
structure ConfPeer where
  hostname : String
  owner : String
  description : String
  added : Int
  publicKey : String
  ip : String
  networks : List String
  deriving DecidableEq

/-- Modelled from the spec: DsnetConfig is declared elsewhere in the
repository; spec section 6 lists the node-level settings that GenerateReport
copies into the report (src lines 119-125) plus the ordered peer list. -/
structure DsnetConfig where
  externalIP : String
  interfaceName : String
  listenPort : Int
  domain : String
  ip : String
  network : String
  dns : String
  peers : List ConfPeer
  deriving DecidableEq

/-- PeerReport (src lines 159-182), fields in source order. -/
structure PeerReport where
  hostname : String
  owner : String
  description : String
  added : Int
  ip : String
  externalIP : String
  status : Status
  networks : List String
  lastHandshakeTime : Int
  receiveBytes : Int
  transmitBytes : Int
  receiveBytesSI : String
  transmitBytesSI : String
  deriving DecidableEq

/-- DsnetReport (src lines 47-62), fields in source order. -/
structure DsnetReport where
  externalIP : String
  interfaceName : String
  listenPort : Int
  domain : String
  ip : String
  network : String
  dns : String
  peersOnline : Int
  peersTotal : Int
  peers : List PeerReport
  deriving DecidableEq

/-- Modelled from the spec: BytesToSI is declared elsewhere in the
repository; spec section 4.3 describes a pure total formatter using binary
magnitude steps with the mantissa in [1, 1024), one decimal place, and the
sign preserved for negative inputs. -/
def siUnits : List String := ["B", "KiB", "MiB", "GiB", "TiB", "PiB", "EiB"]

/-- Number of divisions by 1024 needed to bring a magnitude below 1024,
bounded by the available units. -/
def siExpAux : Nat → Nat → Nat
  | _, 0 => 0
  | m, fuel + 1 => if m < 1024 then 0 else siExpAux (m / 1024) fuel + 1

/-- Modelled from the spec: the SI byte formatter (spec section 4.3). -/
def bytesToSI (n : Int) : String :=
  let sign := if n < 0 then "-" else ""
  let m := n.natAbs
  let e := siExpAux m 6
  if e = 0 then sign ++ toString m ++ " B"
  else
    let base := 1024 ^ e
    let tenths := m * 10 / base
    sign ++ toString (tenths / 10) ++ "." ++ toString (tenths % 10)
      ++ " " ++ siUnits.getD e "EiB"

/-- The public-key index over the live snapshot built by GenerateReport
(src lines 65, 70-72); Go map insertion lets a later duplicate key
overwrite an earlier one. -/
def buildWgPeerIndex (peers : List WgPeer) : String → Option WgPeer :=
  peers.foldl (fun m p => fun k => if k = p.publicKey then some p else m k)
    (fun _ => none)

/-- The hostname index over the previous report built by GenerateReport
(src lines 67, 74-78); it is constructed and never read afterwards. -/
def buildOldPeerReportIndex (oldReport : Option DsnetReport) :
    String → Option PeerReport :=
  match oldReport with
  | none => fun _ => none
  | some r =>
    r.peers.foldl (fun m p => fun k => if k = p.hostname then some p else m k)
      (fun _ => none)

/-- Body of the per-peer loop of GenerateReport (src lines 80-115): look up
live telemetry by public key (zero value when absent), classify the status
by the four-branch chain of src lines 85-94, take the external IP from the
endpoint when present (src lines 96-99), and assemble the PeerReport
(src lines 101-115). -/
def mkPeerReport (now : Int) (idx : String → Option WgPeer)
    (peer : ConfPeer) : PeerReport :=
  let lookup := idx peer.publicKey
  let known := lookup.isSome
  let wgPeer := lookup.getD zeroWgPeer
  let status : Status :=
    if !known then statusUnknown
    else if now - wgPeer.lastHandshakeTime < TIMEOUT then statusOnline
    else if wgPeer.lastHandshakeTime ≠ 0 ∧ now - wgPeer.lastHandshakeTime > EXPIRY then
      statusDormant
    else statusOffline
  let externalIP :=
    match wgPeer.endpoint with
    | none => ""
    | some e => e
  { hostname := peer.hostname
    owner := peer.owner
    description := peer.description
    added := peer.added
    ip := peer.ip
    externalIP := externalIP
    status := status
    networks := peer.networks
    lastHandshakeTime := wgPeer.lastHandshakeTime
    receiveBytes := wgPeer.receiveBytes
    transmitBytes := wgPeer.transmitBytes
    receiveBytesSI := bytesToSI wgPeer.receiveBytes
    transmitBytesSI := bytesToSI wgPeer.transmitBytes }

/-- The loop of src lines 80-116 over the configured peers, producing the
peer reports in configuration order together with the online counter, which
the source increments exactly when the online branch assigns StatusOnline
(src lines 88-89). -/
def generateLoop (now : Int) (idx : String → Option WgPeer) :
    List ConfPeer → List PeerReport × Int
  | [] => ([], 0)
  | peer :: rest =>
    let pr := mkPeerReport now idx peer
    let r := generateLoop now idx rest
    (pr :: r.1, (if pr.status == statusOnline then 1 else 0) + r.2)

/-- GenerateReport (src lines 64-130) with the clock read of time.Since
made an explicit first argument. The previous-report index is built
(src lines 74-78) and then unused, exactly as in the source. -/
def generateReport (now : Int) (dev : Device) (conf : DsnetConfig)
    (oldReport : Option DsnetReport) : DsnetReport :=
  let wgPeerIndex := buildWgPeerIndex dev.peers
  let _oldPeerReportIndex := buildOldPeerReportIndex oldReport
  let res := generateLoop now wgPeerIndex conf.peers
  { externalIP := conf.externalIP
    interfaceName := conf.interfaceName
    listenPort := conf.listenPort
    domain := conf.domain
    ip := conf.ip
    network := conf.network
    dns := conf.dns
    peersOnline := res.2
    peersTotal := (res.1.length : Int)
    peers := res.1 }

/-- The status classifier exactly as the spec states it (spec section 4.2):
rule 1 Unknown when never observed, rule 2 Online when now minus the last
handshake is under the online window, rule 3 Dormant when the last handshake
is non-zero and older than the expiry window, rule 4 Offline otherwise. -/
def classifySpec (known : Bool) (now lastHandshake : Int) : Status :=
  if known = false then statusUnknown
  else if now - lastHandshake < TIMEOUT then statusOnline
  else if lastHandshake ≠ 0 ∧ now - lastHandshake > EXPIRY then statusDormant
  else statusOffline

theorem mkPeerReport_status (now : Int) (idx : String → Option WgPeer)
    (peer : ConfPeer) :
    (mkPeerReport now idx peer).status =
      classifySpec (idx peer.publicKey).isSome now
        ((idx peer.publicKey).getD zeroWgPeer).lastHandshakeTime := by
  cases h : idx peer.publicKey <;> simp [mkPeerReport, classifySpec, h]

theorem mkPeerReport_hostname (now : Int) (idx : String → Option WgPeer)
    (peer : ConfPeer) :
    (mkPeerReport now idx peer).hostname = peer.hostname := rfl

theorem generateLoop_fst (now : Int) (idx : String → Option WgPeer)
    (l : List ConfPeer) :
    (generateLoop now idx l).1 = l.map (mkPeerReport now idx) := by
  induction l with
  | nil => rfl
  | cons peer rest ih => simp [generateLoop, ih]

theorem generateLoop_snd (now : Int) (idx : String → Option WgPeer)
    (l : List ConfPeer) :
    (generateLoop now idx l).2 =
      ((generateLoop now idx l).1.countP
        (fun p => p.status == statusOnline) : Int) := by
  induction l with
  | nil => rfl
  | cons peer rest ih =>
    simp only [generateLoop, List.countP_cons, ih]
    cases h : (mkPeerReport now idx peer).status == statusOnline <;>
      simp [h]
    all_goals omega

theorem generateReport_peers (now : Int) (dev : Device) (conf : DsnetConfig)
    (oldReport : Option DsnetReport) :
    (generateReport now dev conf oldReport).peers =
      conf.peers.map (mkPeerReport now (buildWgPeerIndex dev.peers)) := by
  simp [generateReport, generateLoop_fst]

/-- C1: for every configured peer, GenerateReport assigns the status given
by the four-rule decision order of spec section 4.2 with first match
winning: Unknown when the public key is absent from the live snapshot,
else Online when now minus the last handshake is below TIMEOUT, else
Dormant when the last handshake is non-zero and lies more than EXPIRY in
the past, else Offline. -/
theorem generateReport_status_rule (now : Int) (dev : Device)
    (conf : DsnetConfig) (oldReport : Option DsnetReport) (i : Nat) :
    ((generateReport now dev conf oldReport).peers[i]?).map PeerReport.status
      = (conf.peers[i]?).map (fun peer =>
          classifySpec (buildWgPeerIndex dev.peers peer.publicKey).isSome now
            ((buildWgPeerIndex dev.peers peer.publicKey).getD
              zeroWgPeer).lastHandshakeTime) := by
  rw [generateReport_peers, List.getElem?_map]
  cases h : conf.peers[i]? <;> simp [h, mkPeerReport_status]

/-- C2: the report keeps the configured peer list's length and order: its
PeersTotal is the number of configured peers, its peer sequence is exactly
one entry per configured peer in configuration order, and no peer that is
only in the live snapshot appears. -/
theorem generateReport_peer_sequence (now : Int) (dev : Device)
    (conf : DsnetConfig) (oldReport : Option DsnetReport) :
    (generateReport now dev conf oldReport).peersTotal
        = (conf.peers.length : Int) ∧
    (generateReport now dev conf oldReport).peers.length
        = conf.peers.length ∧
    (generateReport now dev conf oldReport).peers.map PeerReport.hostname
        = conf.peers.map ConfPeer.hostname ∧
    (generateReport now dev conf oldReport).peers
        = conf.peers.map (mkPeerReport now (buildWgPeerIndex dev.peers)) := by
  refine ⟨?_, ?_, ?_, generateReport_peers now dev conf oldReport⟩
  · simp [generateReport, generateLoop_fst]
  · rw [generateReport_peers]
    exact List.length_map _ _
  · rw [generateReport_peers, List.map_map]
    exact List.map_congr_left fun peer _ =>
      mkPeerReport_hostname now (buildWgPeerIndex dev.peers) peer

/-- C3: in every generated report, PeersOnline is the number of peer
entries whose Status is Online and PeersTotal is the length of the peer
sequence. -/
theorem generateReport_counts (now : Int) (dev : Device)
    (conf : DsnetConfig) (oldReport : Option DsnetReport) :
    (generateReport now dev conf oldReport).peersOnline
        = ((generateReport now dev conf oldReport).peers.countP
            (fun p => p.status == statusOnline) : Int) ∧
    (generateReport now dev conf oldReport).peersTotal
        = ((generateReport now dev conf oldReport).peers.length : Int) := by
  constructor
  · simpa [generateReport] using
      generateLoop_snd now (buildWgPeerIndex dev.peers) conf.peers
  · rfl

/-- C5: a peer that is present in the live snapshot with the zero
last-handshake instant is classified Offline, not Dormant and not Online,
whenever the clock is later than TIMEOUT past the zero instant. -/
theorem generateReport_zero_handshake_offline (now : Int) (dev : Device)
    (conf : DsnetConfig) (oldReport : Option DsnetReport) (i : Nat)
    (peer : ConfPeer) (hpeer : conf.peers[i]? = some peer)
    (hknown : (buildWgPeerIndex dev.peers peer.publicKey).isSome = true)
    (hzero : ((buildWgPeerIndex dev.peers peer.publicKey).getD
        zeroWgPeer).lastHandshakeTime = 0)
    (hnow : TIMEOUT < now) :
    ((generateReport now dev conf oldReport).peers[i]?).map PeerReport.status
      = some statusOffline := by
  rw [generateReport_peers, List.getElem?_map, hpeer]
  have h2 : (mkPeerReport now (buildWgPeerIndex dev.peers) peer).status
      = statusOffline := by
    rw [mkPeerReport_status, hzero]
    have h1 : ¬ now < TIMEOUT := by omega
    simp [classifySpec, hknown, h1]
  simp [h2]

theorem generateReport_zero_handshake_offline_witness :
    (DsnetConfig.mk "" "" 0 "" "" "" ""
        [ConfPeer.mk "host1" "" "" 0 "pk1" "" []]).peers[0]?
      = some (ConfPeer.mk "host1" "" "" 0 "pk1" "" []) ∧
    ((generateReport (TIMEOUT + 1)
        (Device.mk [WgPeer.mk "pk1" 0 0 0 none])
        (DsnetConfig.mk "" "" 0 "" "" "" ""
          [ConfPeer.mk "host1" "" "" 0 "pk1" "" []])
        none).peers[0]?).map PeerReport.status = some statusOffline :=
  ⟨by decide,
    generateReport_zero_handshake_offline (TIMEOUT + 1)
      (Device.mk [WgPeer.mk "pk1" 0 0 0 none])
      (DsnetConfig.mk "" "" 0 "" "" "" ""
        [ConfPeer.mk "host1" "" "" 0 "pk1" "" []])
      none 0 (ConfPeer.mk "host1" "" "" 0 "pk1" "" [])
      (by decide) (by decide) (by decide) (by decide)⟩

/-- C10: the previousReport argument has no influence on the produced
report: for any two values of it, including nil, the outputs are equal. -/
theorem generateReport_ignores_previousReport (now : Int) (dev : Device)
    (conf : DsnetConfig) (o1 o2 : Option DsnetReport) :
    generateReport now dev conf o1 = generateReport now dev conf o2 := rfl

/-- Erase the only clock-dependent data of a peer entry: its status. -/
def erasePeerStatus (p : PeerReport) : PeerReport :=
  { p with status := statusUnknown }

/-- Erase the clock-dependent data of a report: every entry's status and
the online count derived from the statuses. -/
def eraseClockDependent (r : DsnetReport) : DsnetReport :=
  { r with peersOnline := 0, peers := r.peers.map erasePeerStatus }

theorem erasePeerStatus_mkPeerReport (idx : String → Option WgPeer)
    (peer : ConfPeer) (now1 now2 : Int) :
    erasePeerStatus (mkPeerReport now1 idx peer)
      = erasePeerStatus (mkPeerReport now2 idx peer) := rfl

/-- C7 (amended): GenerateReport is deterministic in its inputs together
with the clock instant; the clock influences only the statuses and the
online count, so after erasing those, calls at different instants agree. -/
theorem generateReport_clock_only_statuses (dev : Device)
    (conf : DsnetConfig) (oldReport : Option DsnetReport)
    (now1 now2 : Int) :
    eraseClockDependent (generateReport now1 dev conf oldReport)
      = eraseClockDependent (generateReport now2 dev conf oldReport) := by
  simp only [eraseClockDependent, generateReport, DsnetReport.mk.injEq,
    true_and, and_true]
  constructor
  · rw [generateLoop_fst, generateLoop_fst, List.length_map, List.length_map]
  · rw [generateLoop_fst, generateLoop_fst, List.map_map, List.map_map]
    exact List.map_congr_left fun peer _ =>
      erasePeerStatus_mkPeerReport (buildWgPeerIndex dev.peers) peer now1 now2

/-- C7 (counterexample): at the same live snapshot, config and previous
report, two calls with different clock instants return different reports,
so GenerateReport is not independent of the state outside those inputs. -/
theorem generateReport_depends_on_clock :
    generateReport 1 (Device.mk [WgPeer.mk "pk1" 0 0 0 none])
        (DsnetConfig.mk "" "" 0 "" "" "" ""
          [ConfPeer.mk "host1" "" "" 0 "pk1" "" []]) none
      ≠ generateReport TIMEOUT (Device.mk [WgPeer.mk "pk1" 0 0 0 none])
        (DsnetConfig.mk "" "" 0 "" "" "" ""
          [ConfPeer.mk "host1" "" "" 0 "pk1" "" []]) none := by
  decide

/-- JSON documents, the shape into which encoding/json serializes. Numbers
are integers, which covers every numeric field of the report schema. -/
inductive JSON where
  | null
  | bool (b : Bool)
  | num (n : Int)
  | str (s : String)
  | arr (elems : List JSON)
  | obj (fields : List (String × JSON))

/-- Status.MarshalJSON (src lines 42-45): emits the quoted string form of
the status. The comment at src line 42 records that no unmarshal method is
defined, so on decoding Status falls back to its underlying integer kind. -/
def statusMarshalJSON (s : Status) : JSON := .str (statusString s)

/-- Lower bound, in nanoseconds from the zero instant (year 1), of the
instants Go time.Time.MarshalJSON accepts: the year must lie in 0..9999. -/
def timeMarshalMin : Int := -31556952000000000

/-- Upper bound of the instants time.Time.MarshalJSON accepts, in
nanoseconds from the zero instant. -/
def timeMarshalMax : Int := 315537963048000000000

/-- Textual encoding of an instant inside its JSON string; an injective
stand-in for the RFC3339 rendering. -/
def timeEncode (t : Int) : String := toString t

/-- Digit run parser used to read an instant string back. -/
def parseNatAux : List Char → Nat → Option Nat
  | [], acc => some acc
  | c :: cs, acc =>
    if c.isDigit then parseNatAux cs (acc * 10 + (c.toNat - 48)) else none

/-- Signed integer parser over the characters of a string. -/
def parseIntString (s : String) : Option Int :=
  match s.data with
  | [] => none
  | '-' :: cs =>
    match cs with
    | [] => none
    | _ :: _ => (parseNatAux cs 0).map (fun n => -(n : Int))
  | cs => (parseNatAux cs 0).map (fun n => (n : Int))

/-- Inverse of timeEncode, as time.Time.UnmarshalJSON parses the string. -/
def timeDecode (s : String) : Option Int := parseIntString s

/-- Go time.Time.MarshalJSON: fails outside the representable year range,
otherwise yields the JSON string of the instant. -/
def marshalTime (t : Int) : Except String JSON :=
  if t < timeMarshalMin ∨ timeMarshalMax < t then
    .error "Time.MarshalJSON: year outside of range [0,9999]"
  else .ok (.str (timeEncode t))

/-- Marshalling of one PeerReport by encoding/json: fields in declared
order (src lines 159-182) under their Go names; times through
time.Time.MarshalJSON, the status through Status.MarshalJSON, IPs and the
SI strings as JSON strings, byte counters as numbers. -/
def marshalPeerReport (p : PeerReport) : Except String JSON := do
  let added ← marshalTime p.added
  let lastHandshake ← marshalTime p.lastHandshakeTime
  return .obj [("Hostname", .str p.hostname), ("Owner", .str p.owner),
    ("Description", .str p.description), ("Added", added),
    ("IP", .str p.ip), ("ExternalIP", .str p.externalIP),
    ("Status", statusMarshalJSON p.status),
    ("Networks", .arr (p.networks.map JSON.str)),
    ("LastHandshakeTime", lastHandshake),
    ("ReceiveBytes", .num p.receiveBytes),
    ("TransmitBytes", .num p.transmitBytes),
    ("ReceiveBytesSI", .str p.receiveBytesSI),
    ("TransmitBytesSI", .str p.transmitBytesSI)]

/-- Marshalling of the whole DsnetReport by json.MarshalIndent as called in
MustSave (src line 133): fields in declared order (src lines 47-62); any
failure inside (only the time fields can fail) fails the whole encoding,
in which case Go returns nil bytes together with the error. -/
def marshalDsnetReport (r : DsnetReport) : Except String JSON := do
  let peers ← r.peers.mapM marshalPeerReport
  return .obj [("ExternalIP", .str r.externalIP),
    ("InterfaceName", .str r.interfaceName),
    ("ListenPort", .num r.listenPort),
    ("Domain", .str r.domain), ("IP", .str r.ip),
    ("Network", .str r.network), ("DNS", .str r.dns),
    ("PeersOnline", .num r.peersOnline),
    ("PeersTotal", .num r.peersTotal),
    ("Peers", .arr peers)]

/-- Field lookup inside a decoded JSON object. -/
def jsonField (fields : List (String × JSON)) (name : String) :
    Option JSON :=
  (fields.find? (fun f => f.1 == name)).map (fun f => f.2)

/-- Go struct decoding of one field: an absent key leaves the zero value,
a present key decodes with the field's decoder. -/
def fieldDecode {α : Type} (fields : List (String × JSON)) (name : String)
    (dec : JSON → Except String α) (dflt : α) : Except String α :=
  match jsonField fields name with
  | none => .ok dflt
  | some v => dec v

/-- Decoding a Go string (also the textual IP and JSONIPNet fields):
json.Unmarshal requires a JSON string; null leaves the zero value. -/
def decodeString (j : JSON) : Except String String :=
  match j with
  | .str s => .ok s
  | .null => .ok ""
  | _ => .error "json: cannot unmarshal value into Go value of type string"

/-- Decoding a Go integer field: json.Unmarshal requires a number. -/
def decodeInt (j : JSON) : Except String Int :=
  match j with
  | .num n => .ok n
  | .null => .ok 0
  | _ => .error "json: cannot unmarshal value into Go value of type int"

/-- Decoding a Status field: Status declares MarshalJSON but no
UnmarshalJSON (src line 42), so json.Unmarshal falls back to its underlying
integer kind and rejects the JSON string that MarshalJSON produced. -/
def decodeStatus (j : JSON) : Except String Status :=
  match j with
  | .num n => .ok n
  | .null => .ok 0
  | _ =>
    .error "json: cannot unmarshal string into Go value of type dsnet.Status"

/-- Decoding a time.Time field: UnmarshalJSON parses the quoted instant;
null leaves the zero value; any other shape is rejected. -/
def decodeTime (j : JSON) : Except String Int :=
  match j with
  | .str s =>
    match timeDecode s with
    | some t => .ok t
    | none => .error "parsing time: invalid format"
  | .null => .ok 0
  | _ => .error "json: cannot unmarshal value into Go value of type time.Time"

/-- Decoding the Networks slice: an array of strings; null yields the
empty slice. -/
def decodeStringList (j : JSON) : Except String (List String) :=
  match j with
  | .arr xs => xs.mapM decodeString
  | .null => .ok []
  | _ => .error "json: cannot unmarshal value into Go value of type slice"

/-- Zero value of PeerReport, as Go leaves fields that the document does
not mention. -/
def zeroPeerReport : PeerReport :=
  ⟨"", "", "", 0, "", "", 0, [], 0, 0, 0, "", ""⟩

/-- Zero value of DsnetReport. -/
def zeroDsnetReport : DsnetReport :=
  ⟨"", "", 0, "", "", "", "", 0, 0, []⟩

/-- Decoding one PeerReport from a JSON document, per Go struct decoding:
each declared field (src lines 159-182) decodes by its type's rule, absent
keys keep the zero value, and a type mismatch is an error. -/
def unmarshalPeerReport (j : JSON) : Except String PeerReport :=
  match j with
  | .obj fields => do
    let hostname ← fieldDecode fields "Hostname" decodeString ""
    let owner ← fieldDecode fields "Owner" decodeString ""
    let description ← fieldDecode fields "Description" decodeString ""
    let added ← fieldDecode fields "Added" decodeTime 0
    let ip ← fieldDecode fields "IP" decodeString ""
    let externalIP ← fieldDecode fields "ExternalIP" decodeString ""
    let status ← fieldDecode fields "Status" decodeStatus 0
    let networks ← fieldDecode fields "Networks" decodeStringList []
    let lastHandshakeTime ← fieldDecode fields "LastHandshakeTime" decodeTime 0
    let receiveBytes ← fieldDecode fields "ReceiveBytes" decodeInt 0
    let transmitBytes ← fieldDecode fields "TransmitBytes" decodeInt 0
    let receiveBytesSI ← fieldDecode fields "ReceiveBytesSI" decodeString ""
    let transmitBytesSI ← fieldDecode fields "TransmitBytesSI" decodeString ""
    return ⟨hostname, owner, description, added, ip, externalIP, status,
      networks, lastHandshakeTime, receiveBytes, transmitBytes,
      receiveBytesSI, transmitBytesSI⟩
  | .null => .ok zeroPeerReport
  | _ =>
    .error "json: cannot unmarshal value into Go value of type dsnet.PeerReport"

/-- Decoding the Peers slice. -/
def decodePeerList (j : JSON) : Except String (List PeerReport) :=
  match j with
  | .arr xs => xs.mapM unmarshalPeerReport
  | .null => .ok []
  | _ => .error "json: cannot unmarshal value into Go value of type slice"

/-- Decoding a DsnetReport from a JSON document (json.Unmarshal at src
line 150), per Go struct decoding over the declared fields of src
lines 47-62. -/
def unmarshalDsnetReport (j : JSON) : Except String DsnetReport :=
  match j with
  | .obj fields => do
    let externalIP ← fieldDecode fields "ExternalIP" decodeString ""
    let interfaceName ← fieldDecode fields "InterfaceName" decodeString ""
    let listenPort ← fieldDecode fields "ListenPort" decodeInt 0
    let domain ← fieldDecode fields "Domain" decodeString ""
    let ip ← fieldDecode fields "IP" decodeString ""
    let network ← fieldDecode fields "Network" decodeString ""
    let dns ← fieldDecode fields "DNS" decodeString ""
    let peersOnline ← fieldDecode fields "PeersOnline" decodeInt 0
    let peersTotal ← fieldDecode fields "PeersTotal" decodeInt 0
    let peers ← fieldDecode fields "Peers" decodePeerList []
    return ⟨externalIP, interfaceName, listenPort, domain, ip, network,
      dns, peersOnline, peersTotal, peers⟩
  | .null => .ok zeroDsnetReport
  | _ =>
    .error "json: cannot unmarshal value into Go value of type dsnet.DsnetReport"

/-- The schema validation run on load (src lines 153-154):
validator.New().Struct(report). Neither DsnetReport (src lines 47-62) nor
PeerReport (src lines 159-182) declares a validate struct tag — the only
tag in the source is inside a commented-out field at src line 174 — so the
validator accepts every value. -/
def validateDsnetReport (_report : DsnetReport) : Except String Unit :=
  .ok ()

/-- Modelled from the spec: CONFIG_FILE, the fixed externally-configured
path read by MustLoadDsnetReport, is declared elsewhere in the
repository. -/
def CONFIG_FILE : String := "/etc/dsnetconfig.json"

/-- Result of the ioutil.ReadFile call at src line 139: the three error
classes the source distinguishes, or the parsed document of a successful
read. -/
inductive ReadResult where
  | notExist
  | permissionDenied
  | otherError (msg : String)
  | content (document : JSON)

/-- Observable outcome of MustLoadDsnetReport: the nil report for a
missing file, a fatal process-terminating condition, or a loaded report. -/
inductive LoadResult where
  | noReport
  | fatal (msg : String)
  | loaded (report : DsnetReport)
  deriving DecidableEq

/-- MustLoadDsnetReport (src lines 138-157). Modelled from the spec: the
helpers check and ExitFail are declared elsewhere in the repository; per
spec section 7 both are fatal, ExitFail with a user-facing message. A
missing file returns nil (src lines 141-142); a permission error is fatal
with the formatted message of src line 144; any other read error is fatal
via check; a successful read is unmarshalled and then validated, each
failure being fatal via check. -/
def mustLoadDsnetReport (file : ReadResult) : LoadResult :=
  match file with
  | .notExist => .noReport
  | .permissionDenied =>
    .fatal (CONFIG_FILE ++ " cannot be accessed. Check read permissions.")
  | .otherError m => .fatal m
  | .content j =>
    match unmarshalDsnetReport j with
    | .error e => .fatal e
    | .ok report =>
      match validateDsnetReport report with
      | .error e => .fatal e
      | .ok _ => .loaded report

/-- Observable outcome of MustSave: a fatal condition raised by check, or
a completed write of the given document, none standing for the empty file
written from nil bytes. -/
inductive SaveOutcome where
  | fatal (msg : String)
  | wrote (document : Option JSON)

/-- MustSave (src lines 132-136). The error of json.MarshalIndent is
discarded into the blank identifier at src line 133, so a marshal failure
leaves nil bytes which ioutil.WriteFile then writes as an empty file; only
the WriteFile error reaches check (src lines 134-135). The write outcome
is an explicit argument standing for the I/O result. -/
def mustSave (report : DsnetReport) (writeErr : Option String) :
    SaveOutcome :=
  let written := (marshalDsnetReport report).toOption
  match writeErr with
  | some e => .fatal e
  | none => .wrote written

/-- Saving with MustSave and then loading with MustLoadDsnetReport, the
write itself succeeding: a successful encoding hands its document to the
loader, while a swallowed marshal failure leaves an empty file whose parse
fails with the empty-input error of json.Unmarshal. MustLoadDsnetReport
always reads its fixed CONFIG_FILE path (src line 139), so this composition
reads back what was saved only when CONFIG_FILE was the save path. -/
def saveThenLoad (report : DsnetReport) : LoadResult :=
  match mustSave report none with
  | .fatal e => .fatal e
  | .wrote none => .fatal "unexpected end of JSON input"
  | .wrote (some j) => mustLoadDsnetReport (.content j)

/-- A peer entry as GenerateReport would produce for one configured peer
that is currently online. -/
def onePeerEntry : PeerReport :=
  { hostname := "host1"
    owner := "alice"
    description := ""
    added := 0
    ip := "10.0.0.2"
    externalIP := "198.51.100.7"
    status := statusOnline
    networks := []
    lastHandshakeTime := 0
    receiveBytes := 0
    transmitBytes := 0
    receiveBytesSI := "0 B"
    transmitBytesSI := "0 B" }

/-- A well-formed report holding a single peer. -/
def reportWithOnePeer : DsnetReport :=
  { externalIP := "203.0.113.1"
    interfaceName := "dsnet"
    listenPort := 51820
    domain := "dsnet"
    ip := "10.0.0.1"
    network := "10.0.0.0/22"
    dns := "10.0.0.1"
    peersOnline := 1
    peersTotal := 1
    peers := [onePeerEntry] }

/-- C4: the save and load pair is not lossless. MustSave writes every
Status as the JSON string that Status.MarshalJSON produces, but Status has
no UnmarshalJSON, so json.Unmarshal inside MustLoadDsnetReport rejects that
string for the integer-kinded Status: loading a saved report holding any
peer is fatal instead of reproducing the report. -/
theorem saveThenLoad_fatal_on_any_peer :
    saveThenLoad reportWithOnePeer
        = .fatal "json: cannot unmarshal string into Go value of type dsnet.Status" ∧
    saveThenLoad reportWithOnePeer ≠ .loaded reportWithOnePeer := by
  constructor
  · rfl
  · decide

/-- C6 (counterexample): a parsed document that mentions no field at all —
in particular one missing every required field of the spec's schema — loads
successfully as the zero report instead of being fatal, because the report
types declare no validate tags. -/
theorem mustLoad_missing_fields_not_fatal :
    mustLoadDsnetReport (.content (.obj [])) = .loaded zeroDsnetReport := rfl

/-- C6 (amended): load on a nonexistent file returns the nil report; a
permission error is fatal with a user-facing message; any other read error
is fatal; a parsed document either unmarshals, in which case it is always
returned — the schema declares no required fields, so validation never
rejects and absent fields keep zero values — or its type mismatch is
fatal. -/
theorem mustLoad_behavior :
    mustLoadDsnetReport .notExist = .noReport ∧
    mustLoadDsnetReport .permissionDenied
      = .fatal (CONFIG_FILE ++ " cannot be accessed. Check read permissions.") ∧
    (∀ m, mustLoadDsnetReport (.otherError m) = .fatal m) ∧
    (∀ j, mustLoadDsnetReport (.content j)
        = match unmarshalDsnetReport j with
          | .ok r => .loaded r
          | .error e => .fatal e) := by
  refine ⟨rfl, rfl, fun m => rfl, fun j => ?_⟩
  simp only [mustLoadDsnetReport]
  cases unmarshalDsnetReport j <;> rfl

/-- A report whose Added instant lies outside the range that
time.Time.MarshalJSON accepts, so that serialization fails. -/
def badMarshalReport : DsnetReport :=
  { zeroDsnetReport with
    peers := [{ zeroPeerReport with added := timeMarshalMax + 1 }] }

/-- C8 (counterexample): serialization of this report fails, yet MustSave
raises no fatal condition — the marshal error is discarded and the nil
byte slice is written as an empty file. -/
theorem mustSave_swallows_marshal_error :
    marshalDsnetReport badMarshalReport
        = .error "Time.MarshalJSON: year outside of range [0,9999]" ∧
    mustSave badMarshalReport none = .wrote none := ⟨rfl, rfl⟩

/-- C8 (amended): a failure to write the encoded bytes is fatal for the
caller, but a failure to serialize is silently swallowed: MustSave always
proceeds to the write with whatever the encoder produced, the error being
dropped. -/
theorem mustSave_write_failure_fatal (r : DsnetReport) (e : String) :
    mustSave r (some e) = .fatal e ∧
    mustSave r none = .wrote (marshalDsnetReport r).toOption := ⟨rfl, rfl⟩

/-- File contents observable at the report path while MustSave runs
(src line 134): ioutil.WriteFile opens the path with O_WRONLY, O_CREATE
and O_TRUNC — truncating the existing file in place — and then writes the
encoded bytes, so the path holds the old content, then the empty truncated
content, then the new content. -/
def mustSaveFileContents (oldContent newContent : String) : List String :=
  [oldContent, "", newContent]

/-- Atomic replacement in the claim's sense: a concurrent reader of the
path only ever observes the prior contents or the completed new
contents. -/
def atomicReplacement (oldContent newContent : String) : Prop :=
  ∀ s ∈ mustSaveFileContents oldContent newContent,
    s = oldContent ∨ s = newContent

/-- C9 (counterexample): MustSave does not replace the report atomically;
with a nonempty prior report and a nonempty new report, the truncated
intermediate state is neither. -/
theorem mustSave_not_atomic :
    ¬ atomicReplacement "old report" "new report" := by
  intro h
  rcases h "" (by simp [mustSaveFileContents]) with h1 | h1 <;>
    exact absurd h1 (by decide)

/-- C9 (amended): MustSave replaces the file by truncating it in place and
rewriting it, not by write-new-then-install: whenever the old and new
contents are nonempty, a state that is neither of them — the truncated
empty file — is observable during the save. -/
theorem mustSave_truncated_state (oldContent newContent : String)
    (h1 : oldContent ≠ "") (h2 : newContent ≠ "") :
    ∃ s ∈ mustSaveFileContents oldContent newContent,
      s ≠ oldContent ∧ s ≠ newContent :=
  ⟨"", by simp [mustSaveFileContents],
    fun h => h1 h.symm, fun h => h2 h.symm⟩

theorem mustSave_truncated_state_witness :
    ("old report" ≠ "" ∧ "new report" ≠ "") ∧
    ∃ s ∈ mustSaveFileContents "old report" "new report",
      s ≠ "old report" ∧ s ≠ "new report" :=
  ⟨⟨by decide, by decide⟩,
    mustSave_truncated_state "old report" "new report"
      (by decide) (by decide)⟩

/-- End-to-end scenario of spec section 8: peer A never connected and
absent from the snapshot, peer B handshaken one minute ago, peer C
handshaken forty days ago; A is Unknown, B Online, C Dormant, with one
peer online out of three. -/
theorem endToEndScenario :
    ((generateReport (50 * 24 * 3600 * 1000000000)
        (Device.mk
          [WgPeer.mk "pkB" (50 * 24 * 3600 * 1000000000 - 60 * 1000000000)
            0 0 none,
           WgPeer.mk "pkC" (10 * 24 * 3600 * 1000000000) 0 0 none])
        (DsnetConfig.mk "" "" 0 "" "" "" ""
          [ConfPeer.mk "A" "" "" 0 "pkA" "" [],
           ConfPeer.mk "B" "" "" 0 "pkB" "" [],
           ConfPeer.mk "C" "" "" 0 "pkC" "" []])
        none).peers.map PeerReport.status
      = [statusUnknown, statusOnline, statusDormant]) ∧
    (generateReport (50 * 24 * 3600 * 1000000000)
        (Device.mk
          [WgPeer.mk "pkB" (50 * 24 * 3600 * 1000000000 - 60 * 1000000000)
            0 0 none,
           WgPeer.mk "pkC" (10 * 24 * 3600 * 1000000000) 0 0 none])
        (DsnetConfig.mk "" "" 0 "" "" "" ""
          [ConfPeer.mk "A" "" "" 0 "pkA" "" [],
           ConfPeer.mk "B" "" "" 0 "pkB" "" [],
           ConfPeer.mk "C" "" "" 0 "pkC" "" []])
        none).peersOnline = 1 := by
  constructor <;> decide

end Dsnet
